import Mathlib

/-!
Verification of the geofence authoring core of the YATRASURAKSHA web portal
(`src/components/GeofenceManager.jsx`, `src/components/AzureMap.jsx`).

The component is embedded shallowly:

* JavaScript numbers that flow through the authoring state machine are
  modelled by `JSNum` (a rational, or one of the non-finite values `NaN`,
  `Infinity`, `-Infinity`); the handlers under scrutiny never branch on the
  numeric value of a coordinate, so rationals suffice for the finite case.
* The React component state (`step`, `selectedLocation`, `radius`,
  `formData`, plus the click-listener ref and the preview shapes) is the
  record `CompState`; each event handler of the source becomes a function
  `CompState → CompState` (or `CompState × List Eff` when it talks to the
  backend), and `dispatch` delivers an event to its handler exactly when the
  UI affordance for that event exists in the current state (which button /
  input is rendered in `renderContent`, and whether the map click listener
  is currently attached).
* Network traffic is made explicit as a list of `Eff` values emitted by a
  dispatch step: a create request, a list (reload) request, or an error
  alert.
* The geodesic preview-circle generator is embedded over `ℝ`, idealising
  IEEE doubles as real numbers, with `Real.sin`/`Real.cos` for `Math.sin`/
  `Math.cos`.
-/

/-- A JavaScript number: either a finite value (idealised as a rational) or
one of the non-finite values `NaN`, `Infinity`, `-Infinity`. The geofence
click handler stores coordinates without inspecting them, so this split is
all the structure we need. -/
inductive JSNum where
  | num (q : ℚ)
  | nan
  | inf
  | negInf
deriving DecidableEq, Repr

/-- `Number.isFinite` on a `JSNum`. -/
def JSNum.isFinite : JSNum → Bool
  | .num _ => true
  | _ => false

/-- A `{lat, lng}` position as produced by the map click handler
(`GeofenceManager.jsx` lines 115-120: `lat = position[1]`,
`lng = position[0]`). -/
structure Point where
  lat : JSNum
  lng : JSNum
deriving DecidableEq, Repr

/-- The `formData` state object (`GeofenceManager.jsx` lines 15-19). -/
structure FormData where
  name : String
  description : String
  type : String
deriving DecidableEq, Repr

/-- The default `formData` value `{ name: '', description: '', type: 'safe' }`. -/
def defaultFormData : FormData := { name := "", description := "", type := "safe" }

/-- The `step` state variable (`GeofenceManager.jsx` line 12): one of
`'list'`, `'selecting'`, `'radius'`, `'form'`. These realise the spec's
states Idle, SelectingLocation, AdjustingRadius, EnteringDetails. -/
inductive Step where
  | list
  | selecting
  | radius
  | form
deriving DecidableEq, Repr

/-- The authoring-relevant component state of `GeofenceManager`:
the `step`, the draft (`selectedLocation`, `radius`, `formData`), whether
the map click listener is currently attached (`clickHandlerRef.current`
non-null), and whether preview shapes are currently on the map. -/
structure CompState where
  step : Step
  selectedLocation : Option Point
  radius : ℤ
  formData : FormData
  listening : Bool
  preview : Bool
deriving DecidableEq, Repr

/-- The initial component state (`GeofenceManager.jsx` lines 12-24):
step `'list'`, no selected location, radius 500, default form data, no
click listener, no preview shapes. -/
def initState : CompState :=
  { step := .list, selectedLocation := none, radius := 500,
    formData := defaultFormData, listening := false, preview := false }

/-- Backend traffic emitted by one dispatch step. -/
inductive Eff where
  | createReq (name description type : String) (lat lng : JSNum) (radius : ℤ)
  | listReq
  | alertError
deriving DecidableEq, Repr

/-- `handleStartCreate` (`GeofenceManager.jsx` lines 313-318): step
`'selecting'`, location cleared, radius 500, form data reset. Setting the
step to `'selecting'` fires the effect at lines 87-91, which calls
`startMapSelection` and attaches the map click listener; that arming is
folded into the same atomic step here. -/
def handleStartCreate (s : CompState) : CompState :=
  { s with step := .selecting, selectedLocation := none, radius := 500,
           formData := defaultFormData, listening := true }

/-- The map click handler installed by `startMapSelection`
(`GeofenceManager.jsx` lines 115-150): stores the clicked position
unconditionally, redraws the preview marker and circle, and moves to the
`'radius'` step. The listener itself is not detached here, and no
finiteness check is performed on the coordinates. -/
def clickHandler (p : Point) (s : CompState) : CompState :=
  { s with selectedLocation := some p, preview := true, step := .radius }

/-- `handleRadiusChange` (`GeofenceManager.jsx` lines 205-210): stores the
new radius as-is and, when a location is selected, redraws the preview
circle. -/
def handleRadiusChange (newRadius : ℤ) (s : CompState) : CompState :=
  { s with radius := newRadius,
           preview := if s.selectedLocation.isSome then true else s.preview }

/-- The value an `<input type="range" min="50" max="5000">` element can
deliver to its `onChange` handler (`GeofenceManager.jsx` lines 392-399):
per the HTML standard the element clamps its value to `[min, max]`, so the
handler only ever receives clamped values. The preset buttons (lines
407-413) pass the in-range literals 100/250/500/1000/2000, which are fixed
points of this clamp. -/
def sliderClamp (v : ℤ) : ℤ := max 50 (min 5000 v)

/-- `handleTypeChange` (`GeofenceManager.jsx` lines 212-219): updates
`formData.type` and, when a location is selected, redraws the preview. -/
def handleTypeChange (newType : String) (s : CompState) : CompState :=
  { s with formData := { s.formData with type := newType },
           preview := if s.selectedLocation.isSome then true else s.preview }

/-- `handleRemoveLocation` (`GeofenceManager.jsx` lines 221-226): clears
the preview and the location, returns to `'selecting'`, re-arms the click
listener via `startMapSelection`. -/
def handleRemoveLocation (s : CompState) : CompState :=
  { s with preview := false, selectedLocation := none, step := .selecting,
           listening := true }

/-- `handleNextToForm` (`GeofenceManager.jsx` lines 228-231): detaches the
click listener and moves to the `'form'` step. -/
def handleNextToForm (s : CompState) : CompState :=
  { s with listening := false, step := .form }

/-- `handleBackToRadius` (`GeofenceManager.jsx` lines 233-238): returns to
the `'radius'` step and redraws the preview when a location is selected.
Note: it does not re-attach the click listener. -/
def handleBackToRadius (s : CompState) : CompState :=
  { s with step := .radius,
           preview := if s.selectedLocation.isSome then true else s.preview }

/-- `handleCancel` (`GeofenceManager.jsx` lines 320-327): clears the
preview, detaches the click listener, resets the whole draft and returns
to the `'list'` step. It performs no network call. -/
def handleCancel (_s : CompState) : CompState :=
  { step := .list, selectedLocation := none, radius := 500,
    formData := defaultFormData, listening := false, preview := false }

/-- `handleCreate` (`GeofenceManager.jsx` lines 240-274), with the outcome
of the awaited `geofenceAPI.create` call passed in as `ok`. If no location
is selected it returns early with no request. Otherwise it issues exactly
one create request; on success it clears the preview, detaches the
listener, resets the draft, returns to `'list'` and calls `loadGeofences`
(a list request); on failure it alerts the error and leaves all state
untouched. -/
def handleCreate (ok : Bool) (s : CompState) : CompState × List Eff :=
  match s.selectedLocation with
  | none => (s, [])
  | some p =>
    let req : Eff := .createReq s.formData.name s.formData.description
      s.formData.type p.lat p.lng s.radius
    if ok then
      ({ step := .list, selectedLocation := none, radius := 500,
         formData := defaultFormData, listening := false, preview := false },
       [req, .listReq])
    else
      (s, [req, .alertError])

/-- The user-visible events of the authoring flow. `submit ok` carries the
outcome of the backend create call. -/
inductive Event where
  | startCreate
  | locationPicked (p : Point)
  | radiusChanged (v : ℤ)
  | typeChanged (t : String)
  | removeReselect
  | advanceToDetails
  | goBackToRadius
  | submit (ok : Bool)
  | cancel
deriving DecidableEq, Repr

/-- Event delivery. An event reaches its handler exactly when its UI
affordance exists in the current state, read off `renderContent`
(`GeofenceManager.jsx` lines 359-614) and the click-listener bookkeeping:

* `startCreate`: the create button is rendered only in the `'list'` view
  (line 529);
* `locationPicked`: the map click handler fires whenever it is attached —
  it is attached on entering `'selecting'` and stays attached through the
  `'radius'` step until `handleNextToForm`/`handleCancel`/`handleCreate`
  detach it;
* `radiusChanged`: the range slider (lines 392-399, clamped to
  `[50, 5000]` by the input element) and the preset buttons exist only in
  the `'radius'` view;
* `typeChanged`, `removeReselect`, `advanceToDetails`: buttons of the
  `'radius'` view only;
* `goBackToRadius`: the back button of the `'form'` view only;
* `submit`: the submit button of the `'form'` view, disabled while
  `formData.name` is empty (line 496, reinforced by the `required` name
  input at line 473);
* `cancel`: a cancel button is rendered in the `'selecting'` view
  (line 371) and the `'form'` view (line 493) — and in no other view.

An event with no affordance leaves the state unchanged and emits nothing. -/
def dispatch : Event → CompState → CompState × List Eff
  | .startCreate, s => if s.step = .list then (handleStartCreate s, []) else (s, [])
  | .locationPicked p, s => if s.listening then (clickHandler p s, []) else (s, [])
  | .radiusChanged v, s =>
      if s.step = .radius then (handleRadiusChange (sliderClamp v) s, []) else (s, [])
  | .typeChanged t, s => if s.step = .radius then (handleTypeChange t s, []) else (s, [])
  | .removeReselect, s => if s.step = .radius then (handleRemoveLocation s, []) else (s, [])
  | .advanceToDetails, s => if s.step = .radius then (handleNextToForm s, []) else (s, [])
  | .goBackToRadius, s => if s.step = .form then (handleBackToRadius s, []) else (s, [])
  | .submit ok, s =>
      if s.step = .form ∧ s.formData.name ≠ "" then handleCreate ok s else (s, [])
  | .cancel, s =>
      if s.step = .selecting ∨ s.step = .form then (handleCancel s, []) else (s, [])

/-- The state after delivering one event. -/
def stepState (e : Event) (s : CompState) : CompState := (dispatch e s).1

/-- States reachable from the initial component state by delivering
events. -/
inductive Reachable : CompState → Prop where
  | init : Reachable initState
  | next (e : Event) (s : CompState) : Reachable s → Reachable (stepState e s)

/-- The transition-validity table of the specification (spec §4.2): which
transitions are declared valid in which state. Transcribed from the spec's
words, to state the legality claims against the code's behaviour. -/
def specValidB : Event → Step → Bool
  | .startCreate, st => st == .list
  | .locationPicked _, st => st == .selecting
  | .radiusChanged _, st => st == .radius
  | .typeChanged _, st => st == .radius
  | .removeReselect, st => st == .radius
  | .advanceToDetails, st => st == .radius
  | .goBackToRadius, st => st == .form
  | .submit _, st => st == .form
  | .cancel, st => st != .list

/-- Whether an event is a map-click location pick. -/
def isLocPick : Event → Bool
  | .locationPicked _ => true
  | _ => false

/-! ## Geofence collection records and derived statistics -/

/-- A geofence record of the in-memory collection, with the two fields the
derived statistics and the list status badge consume. `type` and
`isActive` are optional because a wire record may omit them (`undefined`
in JavaScript). -/
structure GeofenceRec where
  type : Option String
  isActive : Option Bool
deriving DecidableEq, Repr

/-- The per-type buckets of the derived statistics. -/
structure ByType where
  safe : ℕ
  warning : ℕ
  restricted : ℕ
deriving DecidableEq, Repr

/-- The derived statistics record `{total, active, byType}`. -/
structure Stats where
  total : ℕ
  active : ℕ
  byType : ByType
deriving DecidableEq, Repr

/-- The stats computation of `GeofenceManager.jsx` lines 69-84: if the
collection is non-empty, `total` is its length, `active` counts records
with `isActive !== false`, and `byType` counts records whose `type`
strictly equals each category; an empty collection yields all zeros. -/
def computeStats (geofences : List GeofenceRec) : Stats :=
  if 0 < geofences.length then
    { total := geofences.length,
      active := (geofences.filter (fun g => g.isActive != some false)).length,
      byType :=
        { safe := (geofences.filter (fun g => g.type == some "safe")).length,
          warning := (geofences.filter (fun g => g.type == some "warning")).length,
          restricted := (geofences.filter (fun g => g.type == some "restricted")).length } }
  else
    { total := 0, active := 0, byType := { safe := 0, warning := 0, restricted := 0 } }

/-- The manual tally of a collection, as the amended statistics claim
states it: `total` is the number of records, `active` the number of
records whose `isActive` is not explicitly `false`, `byType` the number of
records of each `type`. -/
def manualTally (geofences : List GeofenceRec) : Stats :=
  { total := geofences.length,
    active := geofences.countP (fun g => g.isActive != some false),
    byType :=
      { safe := geofences.countP (fun g => g.type == some "safe"),
        warning := geofences.countP (fun g => g.type == some "warning"),
        restricted := geofences.countP (fun g => g.type == some "restricted") } }

/-- The status badge predicate of the list view (`GeofenceManager.jsx`
lines 566-570): a record is displayed as active iff `isActive !== false`. -/
def statusBadgeActive (g : GeofenceRec) : Bool := g.isActive != some false

/-! ## Wire-format normalization (`AzureMap.jsx` `loadGeofences`) -/

/-- A geofence record as read from the backend, with the fields
`loadGeofences` (`AzureMap.jsx` lines 302-325) consumes. A GeoJSON-style
coordinate array `[lng, lat]` is modelled as a pair whose first component
is the longitude. -/
structure WireFence where
  geometry_coordinates : Option (ℚ × ℚ)
  center_coordinates : Option (ℚ × ℚ)
  center_latitude : Option ℚ
  center_longitude : Option ℚ
  mongoId : Option String
  fenceId : Option String
  name : Option String
  type : Option String
  radius : Option ℚ
  isActive : Option Bool
deriving DecidableEq, Repr

/-- The normalized record `loadGeofences` builds for the map layer. -/
structure MapFence where
  id : Option String
  name : Option String
  type : String
  centerLat : Option ℚ
  centerLng : Option ℚ
  radius : ℚ
  active : Bool
deriving DecidableEq, Repr

/-- JavaScript `a || b` on two optional strings (`''` and `undefined` are
falsy). -/
def jsOrStr (a b : Option String) : Option String :=
  match a with
  | some s => if s = "" then b else some s
  | none => b

/-- The per-record transform of `loadGeofences` (`AzureMap.jsx` lines
302-324): `geometry.coordinates` is read as `[lng, lat]` and swapped into
`{lat, lng}`; failing that, `center.coordinates` the same way; failing
that, `center.latitude`/`center.longitude` are used directly when both are
truthy. `type` defaults to `'safe'`, `radius` to 500, and `active` is
`isActive !== false`. -/
def transformFence (fence : WireFence) : MapFence :=
  let latlng : Option ℚ × Option ℚ :=
    match fence.geometry_coordinates with
    | some c => (some c.2, some c.1)
    | none =>
      match fence.center_coordinates with
      | some c => (some c.2, some c.1)
      | none =>
        match fence.center_latitude, fence.center_longitude with
        | some la, some lo => if la ≠ 0 ∧ lo ≠ 0 then (some la, some lo) else (none, none)
        | _, _ => (none, none)
  { id := jsOrStr fence.mongoId fence.fenceId,
    name := fence.name,
    type := (match fence.type with | some t => if t = "" then "safe" else t | none => "safe"),
    centerLat := latlng.1,
    centerLng := latlng.2,
    radius := (match fence.radius with | some r => if r = 0 then 500 else r | none => 500),
    active := fence.isActive != some false }

/-! ## Geodesic preview circle (`GeofenceManager.jsx` `createPreviewCircle`) -/

/-- The coordinate ring built by `createPreviewCircle`
(`GeofenceManager.jsx` lines 172-186), idealising IEEE doubles as reals:
for `i = 0..points` inclusive, bearing `angle = (i*360/points)·π/180`,
planar offset `dx = rad·cos angle`, `dy = rad·sin angle`, and vertex
`[newLng, newLat]` with `newLat = lat + (dy/6371000)·(180/π)` and
`newLng = lng + (dx/6371000)·(180/π)/cos(lat·π/180)`. The pair is
`(lng, lat)`-ordered exactly as the pushed GeoJSON coordinate. -/
noncomputable def createPreviewCircleCoords (lat lng rad : ℝ) (points : ℕ) : List (ℝ × ℝ) :=
  (List.range (points + 1)).map fun (i : ℕ) =>
    let angle : ℝ := ((i : ℝ) * 360 / (points : ℝ)) * Real.pi / 180
    let dx : ℝ := rad * Real.cos angle
    let dy : ℝ := rad * Real.sin angle
    let newLat : ℝ := lat + (dy / 6371000) * (180 / Real.pi)
    let newLng : ℝ := lng + (dx / 6371000) * (180 / Real.pi) / Real.cos (lat * Real.pi / 180)
    (newLng, newLat)

/-- The vertex formula as the specification words it (spec §4.1 / claim
C1): vertex `i` is `{lat + (r·sin θᵢ/6371000)·(180/π),
lng + (r·cos θᵢ/6371000)·(180/π)/cos(lat·π/180)}` with
`θᵢ = 360·i/segments` degrees. Stated `(lng, lat)`-ordered to compare with
the generated ring. -/
noncomputable def specCircleVertex (lat lng rad : ℝ) (segments : ℕ) (i : ℕ) : ℝ × ℝ :=
  (lng + (rad * Real.cos (360 * (i : ℝ) / (segments : ℝ) * (Real.pi / 180)) / 6371000) *
     (180 / Real.pi) / Real.cos (lat * Real.pi / 180),
   lat + (rad * Real.sin (360 * (i : ℝ) / (segments : ℝ) * (Real.pi / 180)) / 6371000) *
     (180 / Real.pi))

/-- C1. For every center, every radius `r > 0` and `segments = 64`, the
preview-circle generator produces a ring of exactly `segments + 1 = 65`
vertices, vertex `i` equals the spec's equirectangular offset formula for
every `i ∈ [0, 64]`, and the first and last vertices are identical. -/
theorem c1_preview_circle_ring (lat lng rad : ℝ) (_hr : 0 < rad) :
    (createPreviewCircleCoords lat lng rad 64).length = 64 + 1 ∧
    createPreviewCircleCoords lat lng rad 64 =
      (List.range 65).map (specCircleVertex lat lng rad 64) ∧
    (createPreviewCircleCoords lat lng rad 64).getD 0 (0, 0) =
      (createPreviewCircleCoords lat lng rad 64).getD 64 (0, 0) := by
  have hmap : createPreviewCircleCoords lat lng rad 64 =
      (List.range 65).map (specCircleVertex lat lng rad 64) := by
    unfold createPreviewCircleCoords
    refine congrArg (fun f => List.map f (List.range (64 + 1))) (funext fun i => ?_)
    simp only [specCircleVertex]
    have harg : ((i : ℝ) * 360 / ((64 : ℕ) : ℝ)) * Real.pi / 180 =
        360 * (i : ℝ) / ((64 : ℕ) : ℝ) * (Real.pi / 180) := by ring
    simp only [harg]
  refine ⟨by rw [hmap]; simp, hmap, ?_⟩
  rw [hmap]
  have h0 : ((List.range 65).map (specCircleVertex lat lng rad 64)).getD 0 (0, 0) =
      specCircleVertex lat lng rad 64 0 := by
    simp [List.getD]
  have h64 : ((List.range 65).map (specCircleVertex lat lng rad 64)).getD 64 (0, 0) =
      specCircleVertex lat lng rad 64 64 := by
    simp [List.getD]
  rw [h0, h64]
  unfold specCircleVertex
  have ha0 : 360 * ((0 : ℕ) : ℝ) / ((64 : ℕ) : ℝ) * (Real.pi / 180) = 0 := by
    norm_num
  have ha64 : 360 * ((64 : ℕ) : ℝ) / ((64 : ℕ) : ℝ) * (Real.pi / 180) = 2 * Real.pi := by
    norm_num
    ring
  rw [ha0, ha64, Real.sin_zero, Real.cos_zero, Real.sin_two_pi, Real.cos_two_pi]

/-- Witness for C1 at `lat = 0`, `lng = 0`, `rad = 1`. -/
theorem c1_preview_circle_ring_witness :
    (0 : ℝ) < 1 ∧ (createPreviewCircleCoords 0 0 1 64).length = 64 + 1 :=
  ⟨zero_lt_one, (c1_preview_circle_ring 0 0 1 zero_lt_one).1⟩

/-! ## Derived statistics and normalization claims -/

/-- C2 counterexample: a collection holding one record whose `isActive`
field is missing (`undefined`). The computed `active` count is 1, but the
number of records whose `isActive` is `true` is 0, so the claimed equality
`active = #\x7bisActive true\x7d` fails on this collection. -/
theorem c2_active_count_counterexample :
    (computeStats [{ type := some "safe", isActive := none }]).active = 1 ∧
    List.countP (fun g => g.isActive == some true)
      [({ type := some "safe", isActive := none } : GeofenceRec)] = 0 := by
  decide

/-- C2 (amended): for every Geofence Collection the derived statistics
equal the manual tally in which `total` is the number of records, `active`
is the number of records whose `isActive` is not explicitly `false`
(records lacking the field count as active), and `byType` counts records
whose `type` is `'safe'`, `'warning'` and `'restricted'` respectively. -/
theorem c2_stats_manual_tally (gs : List GeofenceRec) :
    computeStats gs = manualTally gs := by
  unfold computeStats manualTally
  by_cases h : 0 < gs.length
  · simp [h, List.countP_eq_length_filter]
  · have hnil : gs = [] := List.eq_nil_of_length_eq_zero (by omega)
    subst hnil
    simp

/-- A backend record whose wire form stores
`geometry.coordinates = [91.7362, 26.1445]`. -/
def exampleWire : WireFence :=
  { geometry_coordinates := some (91.7362, 26.1445),
    center_coordinates := none, center_latitude := none,
    center_longitude := none, mongoId := none, fenceId := none,
    name := some "Kamakhya Temple Zone", type := some "safe",
    radius := some 500, isActive := none }

/-- C9: a record read back with `geometry.coordinates = [lng, lat]` is
normalized to internal center `{lat, lng}` with the components swapped,
and the same holds for the `center.coordinates = [lng, lat]` wire shape —
both shapes are supported by the reader. -/
theorem c9_coordinate_normalization :
    (∀ (f : WireFence) (lngv latv : ℚ), f.geometry_coordinates = some (lngv, latv) →
      (transformFence f).centerLat = some latv ∧ (transformFence f).centerLng = some lngv) ∧
    (∀ (f : WireFence) (lngv latv : ℚ), f.geometry_coordinates = none →
      f.center_coordinates = some (lngv, latv) →
      (transformFence f).centerLat = some latv ∧ (transformFence f).centerLng = some lngv) := by
  constructor
  · intro f lngv latv hg
    simp [transformFence, hg]
  · intro f lngv latv hg hc
    simp [transformFence, hg, hc]

/-- Witness for C9: the stored `geometry.coordinates = [91.7362, 26.1445]`
of `exampleWire` is read back as `{lat: 26.1445, lng: 91.7362}`. -/
theorem c9_coordinate_normalization_witness :
    (transformFence exampleWire).centerLat = some (26.1445 : ℚ) ∧
    (transformFence exampleWire).centerLng = some (91.7362 : ℚ) :=
  c9_coordinate_normalization.1 exampleWire 91.7362 26.1445 rfl

/-- C10: everywhere the `isActive` field is consumed — the list status
badge, the map reader's `active` flag, and the derived statistics' active
count — the predicate is `isActive !== false`, so a record lacking the
field is treated as active and only an explicit `false` is inactive. -/
theorem c10_isactive_default_active :
    (∀ g : GeofenceRec, statusBadgeActive g = false ↔ g.isActive = some false) ∧
    (∀ f : WireFence, (transformFence f).active = false ↔ f.isActive = some false) ∧
    (∀ gs : List GeofenceRec,
      (computeStats gs).active = (gs.filter (fun g => g.isActive != some false)).length) ∧
    (computeStats [{ type := some "safe", isActive := none }]).active = 1 ∧
    statusBadgeActive { type := some "safe", isActive := none } = true := by
  refine ⟨?_, ?_, ?_, by decide, by decide⟩
  · intro g
    simp [statusBadgeActive]
  · intro f
    simp [transformFence]
  · intro gs
    by_cases h : 0 < gs.length
    · simp [computeStats, h]
    · have hnil : gs = [] := List.eq_nil_of_length_eq_zero (by omega)
      subst hnil
      simp [computeStats]

/-! ## State machine claims -/

/-- In every reachable component state, the map click listener is attached
only while in the `'selecting'` or `'radius'` step. -/
theorem reachable_listening (s : CompState) (h : Reachable s) :
    s.listening = true → s.step = Step.selecting ∨ s.step = Step.radius := by
  induction h with
  | init => simp [initState]
  | next e s hr ih =>
    cases e with
    | startCreate =>
      by_cases hs : s.step = Step.list
      · simp [stepState, dispatch, hs, handleStartCreate]
      · simpa [stepState, dispatch, hs] using ih
    | locationPicked p =>
      cases hl : s.listening
      · simp [stepState, dispatch, hl]
      · simp [stepState, dispatch, hl, clickHandler]
    | radiusChanged v =>
      by_cases hs : s.step = Step.radius
      · simp [stepState, dispatch, hs, handleRadiusChange]
      · simpa [stepState, dispatch, hs] using ih
    | typeChanged t =>
      by_cases hs : s.step = Step.radius
      · simp [stepState, dispatch, hs, handleTypeChange]
      · simpa [stepState, dispatch, hs] using ih
    | removeReselect =>
      by_cases hs : s.step = Step.radius
      · simp [stepState, dispatch, hs, handleRemoveLocation]
      · simpa [stepState, dispatch, hs] using ih
    | advanceToDetails =>
      by_cases hs : s.step = Step.radius
      · simp [stepState, dispatch, hs, handleNextToForm]
      · simpa [stepState, dispatch, hs] using ih
    | goBackToRadius =>
      by_cases hs : s.step = Step.form
      · intro hl
        simp only [stepState, dispatch, hs, if_pos, handleBackToRadius] at hl ⊢
        rcases ih hl with h1 | h1 <;> simp [hs] at h1 ⊢
      · simpa [stepState, dispatch, hs] using ih
    | submit ok =>
      by_cases hs : s.step = Step.form ∧ s.formData.name ≠ ""
      · intro hl
        cases hloc : s.selectedLocation with
        | none =>
          simp only [stepState, dispatch, if_pos hs, handleCreate, hloc] at hl
          rcases ih hl with h1 | h1 <;> rw [hs.1] at h1 <;> simp at h1
        | some p =>
          cases ok with
          | true => simp [stepState, dispatch, if_pos hs, handleCreate, hloc] at hl
          | false =>
            simp only [stepState, dispatch, if_pos hs, handleCreate, hloc] at hl
            rcases ih hl with h1 | h1 <;> rw [hs.1] at h1 <;> simp at h1
      · simpa [stepState, dispatch, hs] using ih
    | cancel =>
      by_cases hs : s.step = Step.selecting ∨ s.step = Step.form
      · simp [stepState, dispatch, hs, handleCancel]
      · simpa [stepState, dispatch, hs] using ih

/-- The slider clamp always lands in the supported range. -/
theorem sliderClamp_mem (v : ℤ) : 50 ≤ sliderClamp v ∧ sliderClamp v ≤ 5000 := by
  unfold sliderClamp
  exact ⟨le_max_left _ _, max_le (by norm_num) (min_le_left _ _)⟩

/-- In every reachable component state, the draft radius lies in the
supported range `[50, 5000]`. -/
theorem reachable_radius_range (s : CompState) (h : Reachable s) :
    50 ≤ s.radius ∧ s.radius ≤ 5000 := by
  induction h with
  | init => exact ⟨by norm_num [initState], by norm_num [initState]⟩
  | next e s hr ih =>
    cases e with
    | startCreate =>
      by_cases hs : s.step = Step.list
      · simp [stepState, dispatch, hs, handleStartCreate]
      · simpa [stepState, dispatch, hs] using ih
    | locationPicked p =>
      cases hl : s.listening
      · simpa [stepState, dispatch, hl] using ih
      · simpa [stepState, dispatch, hl, clickHandler] using ih
    | radiusChanged v =>
      by_cases hs : s.step = Step.radius
      · simpa [stepState, dispatch, hs, handleRadiusChange] using sliderClamp_mem v
      · simpa [stepState, dispatch, hs] using ih
    | typeChanged t =>
      by_cases hs : s.step = Step.radius
      · simpa [stepState, dispatch, hs, handleTypeChange] using ih
      · simpa [stepState, dispatch, hs] using ih
    | removeReselect =>
      by_cases hs : s.step = Step.radius
      · simpa [stepState, dispatch, hs, handleRemoveLocation] using ih
      · simpa [stepState, dispatch, hs] using ih
    | advanceToDetails =>
      by_cases hs : s.step = Step.radius
      · simpa [stepState, dispatch, hs, handleNextToForm] using ih
      · simpa [stepState, dispatch, hs] using ih
    | goBackToRadius =>
      by_cases hs : s.step = Step.form
      · simpa [stepState, dispatch, hs, handleBackToRadius] using ih
      · simpa [stepState, dispatch, hs] using ih
    | submit ok =>
      by_cases hs : s.step = Step.form ∧ s.formData.name ≠ ""
      · cases hloc : s.selectedLocation with
        | none => simpa [stepState, dispatch, if_pos hs, handleCreate, hloc] using ih
        | some p =>
          cases ok with
          | true =>
            constructor <;>
              norm_num [stepState, dispatch, if_pos hs, handleCreate, hloc, initState]
          | false => simpa [stepState, dispatch, if_pos hs, handleCreate, hloc] using ih
      · simpa [stepState, dispatch, hs] using ih
    | cancel =>
      by_cases hs : s.step = Step.selecting ∨ s.step = Step.form
      · constructor <;> norm_num [stepState, dispatch, hs, handleCancel]
      · simpa [stepState, dispatch, hs] using ih

/-- The state after `StartCreate()` from the initial state: step
`'selecting'`, click listener attached. -/
def stSelecting : CompState := stepState .startCreate initState

/-- The state after `StartCreate()` then `LocationPicked((1, 2))`: step
`'radius'`, location set — and the click listener still attached. -/
def stRadius : CompState :=
  stepState (.locationPicked ⟨.num 1, .num 2⟩) stSelecting

/-- `stSelecting` is reachable. -/
theorem stSelecting_reachable : Reachable stSelecting :=
  Reachable.next _ _ Reachable.init

/-- `stRadius` is reachable. -/
theorem stRadius_reachable : Reachable stRadius :=
  Reachable.next _ _ stSelecting_reachable

/-- C3 counterexample: in the reachable `'radius'` (AdjustingRadius) state
`stRadius`, the transition `LocationPicked((3, 4))` is not listed as valid
by the spec, yet it is not a no-op — the map click listener is still
attached there, so the click re-picks the draft location. -/
theorem c3_invalid_transition_counterexample :
    Reachable stRadius ∧ stRadius.step = Step.radius ∧
    specValidB (Event.locationPicked ⟨.num 3, .num 4⟩) stRadius.step = false ∧
    stepState (Event.locationPicked ⟨.num 3, .num 4⟩) stRadius ≠ stRadius :=
  ⟨stRadius_reachable, by decide, by decide, by decide⟩

/-- C3 (amended): in every reachable state, delivering a transition not
listed as valid for that state is a no-op (state, draft and backend
traffic unchanged), except for `LocationPicked` delivered in the
`'radius'` step, where the still-attached click listener re-picks the
location. In particular `RadiusChanged(v)` in the `'list'` (Idle) state
has no effect. -/
theorem c3_invalid_transition_noop (s : CompState) (e : Event)
    (h : Reachable s) (hinvalid : specValidB e s.step = false)
    (hexc : isLocPick e = false ∨ s.step ≠ Step.radius) :
    dispatch e s = (s, []) := by
  cases e with
  | startCreate =>
    have hs : s.step ≠ Step.list := by simpa [specValidB] using hinvalid
    simp [dispatch, hs]
  | locationPicked p =>
    have hsel : s.step ≠ Step.selecting := by simpa [specValidB] using hinvalid
    have hrad : s.step ≠ Step.radius := by
      rcases hexc with h1 | h1
      · simp [isLocPick] at h1
      · exact h1
    cases hl : s.listening with
    | false => simp [dispatch, hl]
    | true =>
      rcases reachable_listening s h hl with h2 | h2
      · exact absurd h2 hsel
      · exact absurd h2 hrad
  | radiusChanged v =>
    have hs : s.step ≠ Step.radius := by simpa [specValidB] using hinvalid
    simp [dispatch, hs]
  | typeChanged t =>
    have hs : s.step ≠ Step.radius := by simpa [specValidB] using hinvalid
    simp [dispatch, hs]
  | removeReselect =>
    have hs : s.step ≠ Step.radius := by simpa [specValidB] using hinvalid
    simp [dispatch, hs]
  | advanceToDetails =>
    have hs : s.step ≠ Step.radius := by simpa [specValidB] using hinvalid
    simp [dispatch, hs]
  | goBackToRadius =>
    have hs : s.step ≠ Step.form := by simpa [specValidB] using hinvalid
    simp [dispatch, hs]
  | submit ok =>
    have hs : s.step ≠ Step.form := by simpa [specValidB] using hinvalid
    simp [dispatch, hs]
  | cancel =>
    have hs : s.step = Step.list := by simpa [specValidB] using hinvalid
    simp [dispatch, hs]

/-- Witness for C3 (amended): `RadiusChanged(100)` delivered in the
initial (Idle) state is a no-op. -/
theorem c3_invalid_transition_noop_witness :
    specValidB (Event.radiusChanged 100) initState.step = false ∧
    dispatch (Event.radiusChanged 100) initState = (initState, []) :=
  ⟨by decide,
   c3_invalid_transition_noop initState (Event.radiusChanged 100)
     Reachable.init (by decide) (by decide)⟩

/-- C4 counterexample: the transition sequence `StartCreate()`,
`LocationPicked((1, 2))`, `Cancel()` ends with `Cancel()` invoked from the
non-Idle `'radius'` state, but the resulting state is still `'radius'`
with the draft location set — no cancel control is rendered in the radius
step, so the Draft is not reset and the state is not Idle. -/
theorem c4_cancel_counterexample :
    stRadius.step ≠ Step.list ∧
    (stepState Event.cancel stRadius).step = Step.radius ∧
    (stepState Event.cancel stRadius).selectedLocation = some ⟨.num 1, .num 2⟩ := by
  decide

/-- C4 (amended): `Cancel()` delivered in the `'selecting'` or `'form'`
step (the two non-Idle steps that render a cancel control) resets the
Draft to the default Draft (no location, radius 500, type `'safe'`, empty
name and description), returns to the `'list'` (Idle) state, clears the
preview and makes no network call; in the `'radius'` step no cancel
control exists, so `Cancel()` there has no effect. -/
theorem c4_cancel_resets (s : CompState)
    (h : s.step = Step.selecting ∨ s.step = Step.form) :
    dispatch Event.cancel s = (initState, []) := by
  simp [dispatch, h, handleCancel, initState]

/-- Witness for C4 (amended) at the reachable `'selecting'` state. -/
theorem c4_cancel_resets_witness :
    (stSelecting.step = Step.selecting ∨ stSelecting.step = Step.form) ∧
    dispatch Event.cancel stSelecting = (initState, []) :=
  ⟨by decide, c4_cancel_resets stSelecting (by decide)⟩

/-- C5: `Submit()` in the `'form'` (EnteringDetails) step with an empty
draft name or with no selected location is rejected locally, whatever the
backend would answer: no request of any kind is issued and the state
(including the whole draft) is unchanged. -/
theorem c5_submit_incomplete_rejected (s : CompState) (ok : Bool)
    (hstep : s.step = Step.form)
    (hinc : s.formData.name = "" ∨ s.selectedLocation = none) :
    dispatch (Event.submit ok) s = (s, []) := by
  rcases hinc with hn | hl
  · simp [dispatch, hn]
  · by_cases hname : s.formData.name = ""
    · simp [dispatch, hname]
    · simp [dispatch, hstep, hname, handleCreate, hl]

/-- A `'form'`-step state with an empty draft name. -/
def stFormEmptyName : CompState := { initState with step := Step.form }

/-- Witness for C5 at a `'form'` state with empty name and no location. -/
theorem c5_submit_incomplete_rejected_witness :
    stFormEmptyName.step = Step.form ∧
    (stFormEmptyName.formData.name = "" ∨ stFormEmptyName.selectedLocation = none) ∧
    dispatch (Event.submit true) stFormEmptyName = (stFormEmptyName, []) :=
  ⟨by decide, by decide,
   c5_submit_incomplete_rejected stFormEmptyName true (by decide) (by decide)⟩

/-- C6: for a complete draft submitted from the `'form'` step, a failing
create call leaves the state (and the whole draft) unchanged, surfaces the
error alert and issues exactly one create request, with no retry; a
successful create call clears the preview, resets the draft to the
defaults, returns to the `'list'` (Idle) state and triggers a collection
reload. -/
theorem c6_submit_outcomes (s : CompState) (p : Point)
    (hstep : s.step = Step.form) (hname : s.formData.name ≠ "")
    (hloc : s.selectedLocation = some p) :
    dispatch (Event.submit false) s =
      (s, [Eff.createReq s.formData.name s.formData.description s.formData.type
             p.lat p.lng s.radius, Eff.alertError]) ∧
    dispatch (Event.submit true) s =
      (initState, [Eff.createReq s.formData.name s.formData.description s.formData.type
             p.lat p.lng s.radius, Eff.listReq]) := by
  constructor <;> simp [dispatch, hstep, hname, handleCreate, hloc, initState]

/-- A `'form'`-step state with a complete draft. -/
def stFormFilled : CompState :=
  { step := Step.form, selectedLocation := some ⟨.num 1, .num 2⟩, radius := 1000,
    formData := { name := "Test Zone", description := "", type := "restricted" },
    listening := false, preview := true }

/-- Witness for C6 at a complete `'form'` draft, successful create. -/
theorem c6_submit_outcomes_witness :
    dispatch (Event.submit true) stFormFilled =
      (initState,
       [Eff.createReq "Test Zone" "" "restricted" (.num 1) (.num 2) 1000,
        Eff.listReq]) :=
  (c6_submit_outcomes stFormFilled ⟨.num 1, .num 2⟩ (by decide) (by decide)
    (by decide)).2

/-- C7 counterexample: in the reachable `'selecting'` state, picking the
non-finite point `(NaN, NaN)` is not a no-op — the click handler performs
no finiteness check, so the draft location is set to the non-finite point
and the machine moves to the `'radius'` step. -/
theorem c7_nonfinite_counterexample :
    JSNum.nan.isFinite = false ∧
    stSelecting.step = Step.selecting ∧
    (stepState (Event.locationPicked ⟨JSNum.nan, JSNum.nan⟩)
        stSelecting).selectedLocation = some ⟨JSNum.nan, JSNum.nan⟩ ∧
    (stepState (Event.locationPicked ⟨JSNum.nan, JSNum.nan⟩)
        stSelecting).step = Step.radius := by
  decide

/-- C7 (amended): whenever the click listener is attached (in particular
in SelectingLocation), `LocationPicked(point)` sets
`Draft.location = point` and moves to AdjustingRadius unconditionally —
the code performs no finiteness check, so this holds for non-finite
coordinates as well. -/
theorem c7_location_picked_unconditional (s : CompState) (p : Point)
    (hl : s.listening = true) :
    dispatch (Event.locationPicked p) s =
      ({ s with selectedLocation := some p, preview := true,
                step := Step.radius }, []) := by
  simp [dispatch, hl, clickHandler]

/-- Witness for C7 (amended) at the reachable `'selecting'` state with a
non-finite point. -/
theorem c7_location_picked_unconditional_witness :
    dispatch (Event.locationPicked ⟨JSNum.nan, JSNum.inf⟩) stSelecting =
      ({ stSelecting with
          selectedLocation := some ⟨JSNum.nan, JSNum.inf⟩,
          preview := true,
          step := Step.radius }, []) :=
  c7_location_picked_unconditional stSelecting ⟨JSNum.nan, JSNum.inf⟩ (by decide)

/-- C8: for every reachable state and every input value `v`, after
delivering `RadiusChanged(v)` the draft radius lies within `[50, 5000]`;
when the machine is in the `'radius'` step the stored value is exactly the
input clamped to the supported range by the slider element. -/
theorem c8_radius_clamped (s : CompState) (v : ℤ) (h : Reachable s) :
    (50 ≤ (stepState (Event.radiusChanged v) s).radius ∧
      (stepState (Event.radiusChanged v) s).radius ≤ 5000) ∧
    (s.step = Step.radius →
      (stepState (Event.radiusChanged v) s).radius = max 50 (min 5000 v)) := by
  by_cases hs : s.step = Step.radius
  · constructor
    · simpa [stepState, dispatch, hs, handleRadiusChange] using sliderClamp_mem v
    · intro _
      simp [stepState, dispatch, hs, handleRadiusChange, sliderClamp]
  · constructor
    · simpa [stepState, dispatch, hs] using reachable_radius_range s h
    · intro hc
      exact absurd hc hs

/-- Witness for C8: delivering `RadiusChanged(999999)` in the reachable
`'radius'` state stores 5000. -/
theorem c8_radius_clamped_witness :
    (50 ≤ (stepState (Event.radiusChanged 999999) stRadius).radius ∧
      (stepState (Event.radiusChanged 999999) stRadius).radius ≤ 5000) ∧
    (stRadius.step = Step.radius →
      (stepState (Event.radiusChanged 999999) stRadius).radius =
        max 50 (min 5000 999999)) :=
  c8_radius_clamped stRadius 999999 stRadius_reachable
